import Mathlib

/-!
Shallow embedding of the ticket domain model of `src/src/App.tsx`
(helpdesk manager): the `TicketsModel` class (ticket collection, CRUD,
search, statistics, status state machine) and the `TicketsController`
class (publish/subscribe change notification).

Conventions of the embedding:
* `Date.now()` is passed explicitly as a `now : Nat` parameter to every
  operation that reads the clock (one reading per operation).
* Generated identifiers (`ticket_${Date.now()}_${random}` and
  `comment_${...}`) are passed explicitly as a `freshId : String`
  parameter, standing for the string the source computes.
* JavaScript `Partial<Ticket>` update objects are modelled by
  `TicketPatch`, a structure of `Option` fields (a `none` field is an
  absent key). The `updatedAt` key of the partial is omitted because the
  source's spread `\x7b ...ticket, ...updates, updatedAt: Date.now() \x7d`
  always overwrites it.
* The JS falsiness test `!ticket.resolvedAt` on a `number | undefined`
  field is modelled by `jsFalsyNat` (true for `undefined` and for `0`).
* Controller listeners (a JS `Set` of callbacks, compared by reference
  identity, iterated in insertion order) are modelled as a duplicate-free
  `List Nat` of callback identities; `notify` appends the current listener
  list to a `notifications` invocation log. `syncToStorage` (persistence)
  is outside the embedded core and is a no-op here.
-/

/-- Ticket workflow status, the source union type `TicketStatus`
(`'open' | 'in-progress' | 'waiting' | 'resolved' | 'closed'`);
`open_` stands for `'open'` (a Lean keyword). -/
inductive TicketStatus where
  | open_
  | inProgress
  | waiting
  | resolved
  | closed
  deriving DecidableEq, Repr

/-- Ticket priority, the source union type `TicketPriority`. -/
inductive TicketPriority where
  | low
  | medium
  | high
  | urgent
  deriving DecidableEq, Repr

/-- Ticket category, the source union type `TicketCategory`. -/
inductive TicketCategory where
  | technical
  | billing
  | account
  | feature
  | bug
  | other
  deriving DecidableEq, Repr

/-- The source `Comment` interface. -/
structure Comment where
  id : String
  ticketId : String
  author : String
  content : String
  isInternal : Bool
  timestamp : Nat
  deriving DecidableEq, Repr

/-- The source `Ticket` interface; optional fields (`assignedTo?`,
`resolvedAt?`) become `Option`. -/
structure Ticket where
  id : String
  title : String
  description : String
  category : TicketCategory
  priority : TicketPriority
  status : TicketStatus
  author : String
  assignedTo : Option String
  createdAt : Nat
  updatedAt : Nat
  resolvedAt : Option Nat
  comments : List Comment
  deriving DecidableEq, Repr

/-- The state of the source `TicketsModel` class: its private
`tickets: Ticket[]` array. -/
structure TicketsModel where
  tickets : List Ticket
  deriving DecidableEq, Repr

/-- Argument of `createTicket`: the source type
`Omit<Ticket, 'id' | 'createdAt' | 'updatedAt' | 'comments'>`
(note that the optional `resolvedAt` key survives the `Omit`). -/
structure TicketDraft where
  title : String
  description : String
  category : TicketCategory
  priority : TicketPriority
  status : TicketStatus
  author : String
  assignedTo : Option String
  resolvedAt : Option Nat
  deriving DecidableEq, Repr

/-- Argument of `updateTicket`: the source type `Partial<Ticket>`;
each `none` field is an absent key of the partial object. -/
structure TicketPatch where
  id : Option String := none
  title : Option String := none
  description : Option String := none
  category : Option TicketCategory := none
  priority : Option TicketPriority := none
  status : Option TicketStatus := none
  author : Option String := none
  assignedTo : Option (Option String) := none
  createdAt : Option Nat := none
  resolvedAt : Option (Option Nat) := none
  comments : Option (List Comment) := none
  deriving DecidableEq, Repr

/-- Argument of `addComment`: the source type
`Omit<Comment, 'id' | 'ticketId' | 'timestamp'>`. -/
structure CommentDraft where
  author : String
  content : String
  isInternal : Bool
  deriving DecidableEq, Repr

/-- JS falsiness of an optional numeric field: `!x` on a
`number | undefined` value is true for `undefined` and for `0`. -/
def jsFalsyNat : Option Nat → Bool
  | none => true
  | some n => n == 0

/-- The object spread `\x7b ...ticket, ...updates, updatedAt: Date.now() \x7d`
inside `updateTicket`: present patch keys overwrite the ticket's fields,
then `updatedAt` is stamped with the current time. -/
def applyPatch (t : Ticket) (p : TicketPatch) (now : Nat) : Ticket :=
  { id := p.id.getD t.id
    title := p.title.getD t.title
    description := p.description.getD t.description
    category := p.category.getD t.category
    priority := p.priority.getD t.priority
    status := p.status.getD t.status
    author := p.author.getD t.author
    assignedTo := p.assignedTo.getD t.assignedTo
    createdAt := p.createdAt.getD t.createdAt
    updatedAt := now
    resolvedAt := p.resolvedAt.getD t.resolvedAt
    comments := p.comments.getD t.comments }

/-- The per-ticket effect of `TicketsModel.updateTicket`: merge the patch,
then, when the patch's `status` key is `'resolved'` and the merged ticket's
`resolvedAt` is falsy, stamp `resolvedAt = Date.now()`. -/
def updateTicketFn (p : TicketPatch) (now : Nat) (t : Ticket) : Ticket :=
  let merged := applyPatch t p now
  if p.status == some TicketStatus.resolved && jsFalsyNat merged.resolvedAt then
    { merged with resolvedAt := some now }
  else merged

/-- Replace the first element satisfying `p` by its image under `f`
(the source's `findIndex` followed by an assignment at that index). -/
def updateFirstList {α : Type} (p : α → Bool) (f : α → α) : List α → List α
  | [] => []
  | a :: as => if p a then f a :: as else a :: updateFirstList p f as

/-- `TicketsModel.getAllTickets`: a copy of the array sorted by
`updatedAt` descending (`(a, b) => b.updatedAt - a.updatedAt`). -/
def getAllTickets (m : TicketsModel) : List Ticket :=
  m.tickets.mergeSort (fun a b => b.updatedAt ≤ a.updatedAt)

/-- `TicketsModel.getTicketById`: first ticket with the given id
(`Array.prototype.find`), or the not-found signal. -/
def getTicketById (m : TicketsModel) (id : String) : Option Ticket :=
  m.tickets.find? (fun t => t.id == id)

/-- `TicketsModel.createTicket`: build the new ticket from the draft with
the generated id, `createdAt = updatedAt = now`, empty comments, and push
it onto the array. Returns the new ticket and the new model state. -/
def createTicket (m : TicketsModel) (draft : TicketDraft) (freshId : String) (now : Nat) :
    Ticket × TicketsModel :=
  let newTicket : Ticket :=
    { id := freshId
      title := draft.title
      description := draft.description
      category := draft.category
      priority := draft.priority
      status := draft.status
      author := draft.author
      assignedTo := draft.assignedTo
      createdAt := now
      updatedAt := now
      resolvedAt := draft.resolvedAt
      comments := [] }
  (newTicket, ⟨m.tickets ++ [newTicket]⟩)

/-- `TicketsModel.updateTicket`: find the index of the ticket (null when
absent), merge the patch there with `updateTicketFn`, return the merged
ticket and the new model state. -/
def updateTicket (m : TicketsModel) (id : String) (p : TicketPatch) (now : Nat) :
    Option Ticket × TicketsModel :=
  match m.tickets.find? (fun t => t.id == id) with
  | none => (none, m)
  | some t =>
      (some (updateTicketFn p now t),
       ⟨updateFirstList (fun t => t.id == id) (updateTicketFn p now) m.tickets⟩)

/-- `TicketsModel.deleteTicket`: filter out the id, report whether the
array shrank. -/
def deleteTicket (m : TicketsModel) (id : String) : Bool × TicketsModel :=
  let remaining := m.tickets.filter (fun t => !(t.id == id))
  (decide (remaining.length < m.tickets.length), ⟨remaining⟩)

/-- ASCII model of `String.prototype.toLowerCase`: lowercase every
character. -/
def jsToLower (s : String) : String :=
  ⟨s.data.map Char.toLower⟩

/-- Whether `sub` occurs at the start of `l`
(helper for `String.prototype.includes`). -/
def listStartsWith : List Char → List Char → Bool
  | [], _ => true
  | _ :: _, [] => false
  | a :: as, b :: bs => a == b && listStartsWith as bs

/-- Whether `sub` occurs contiguously anywhere in `l`
(helper for `String.prototype.includes`). -/
def listHasSub (sub : List Char) : List Char → Bool
  | [] => listStartsWith sub []
  | c :: cs => listStartsWith sub (c :: cs) || listHasSub sub cs

/-- `String.prototype.includes`: substring containment. -/
def strIncludes (s sub : String) : Bool :=
  listHasSub sub.toList s.toList

/-- `TicketsModel.searchTickets`: case-insensitive substring match of the
term against title, description and id. -/
def searchTickets (m : TicketsModel) (term : String) : List Ticket :=
  let lowerTerm := jsToLower term
  m.tickets.filter (fun t =>
    strIncludes (jsToLower t.title) lowerTerm ||
    strIncludes (jsToLower t.description) lowerTerm ||
    strIncludes (jsToLower t.id) lowerTerm)

/-- `TicketsModel.filterByCategory`. -/
def filterByCategory (m : TicketsModel) (c : TicketCategory) : List Ticket :=
  m.tickets.filter (fun t => t.category == c)

/-- `TicketsModel.filterByPriority`. -/
def filterByPriority (m : TicketsModel) (p : TicketPriority) : List Ticket :=
  m.tickets.filter (fun t => t.priority == p)

/-- `TicketsModel.filterByStatus`. -/
def filterByStatus (m : TicketsModel) (s : TicketStatus) : List Ticket :=
  m.tickets.filter (fun t => t.status == s)

/-- The comment object `addComment` builds from its draft, the generated
id, the ticket id and the current time. -/
def mkComment (freshId ticketId : String) (d : CommentDraft) (now : Nat) : Comment :=
  { id := freshId
    ticketId := ticketId
    author := d.author
    content := d.content
    isInternal := d.isInternal
    timestamp := now }

/-- `TicketsModel.addComment`: null when the ticket is absent; otherwise
push the new comment onto that ticket's comment array and stamp the
ticket's `updatedAt = now`. -/
def addComment (m : TicketsModel) (ticketId : String) (d : CommentDraft)
    (freshId : String) (now : Nat) : Option Comment × TicketsModel :=
  match m.tickets.find? (fun t => t.id == ticketId) with
  | none => (none, m)
  | some _ =>
      (some (mkComment freshId ticketId d now),
       ⟨updateFirstList (fun t => t.id == ticketId)
          (fun t => { t with comments := t.comments ++ [mkComment freshId ticketId d now]
                             updatedAt := now }) m.tickets⟩)

/-- `TicketsModel.getTicketComments`: the ticket's comments sorted by
timestamp ascending; empty when the ticket is absent. -/
def getTicketComments (m : TicketsModel) (ticketId : String) : List Comment :=
  match getTicketById m ticketId with
  | none => []
  | some t => t.comments.mergeSort (fun a b => a.timestamp ≤ b.timestamp)

/-- The `byPriority` record of `getStatistics`. -/
structure PriorityCounts where
  low : Nat
  medium : Nat
  high : Nat
  urgent : Nat
  deriving DecidableEq, Repr

/-- The `byCategory` record of `getStatistics`. -/
structure CategoryCounts where
  technical : Nat
  billing : Nat
  account : Nat
  feature : Nat
  bug : Nat
  other : Nat
  deriving DecidableEq, Repr

/-- Return record of `getStatistics`. `averageResolutionTime` (a
floating-point mean, irrelevant to the claims) is not embedded. -/
structure Statistics where
  total : Nat
  open_ : Nat
  inProgress : Nat
  waiting : Nat
  resolved : Nat
  closed : Nat
  byPriority : PriorityCounts
  byCategory : CategoryCounts
  deriving DecidableEq, Repr

/-- `TicketsModel.getStatistics`: per-status, per-priority and
per-category filter counts over the ticket array. -/
def getStatistics (m : TicketsModel) : Statistics :=
  { total := m.tickets.length
    open_ := (m.tickets.filter (fun t => t.status == TicketStatus.open_)).length
    inProgress := (m.tickets.filter (fun t => t.status == TicketStatus.inProgress)).length
    waiting := (m.tickets.filter (fun t => t.status == TicketStatus.waiting)).length
    resolved := (m.tickets.filter (fun t => t.status == TicketStatus.resolved)).length
    closed := (m.tickets.filter (fun t => t.status == TicketStatus.closed)).length
    byPriority :=
      { low := (m.tickets.filter (fun t => t.priority == TicketPriority.low)).length
        medium := (m.tickets.filter (fun t => t.priority == TicketPriority.medium)).length
        high := (m.tickets.filter (fun t => t.priority == TicketPriority.high)).length
        urgent := (m.tickets.filter (fun t => t.priority == TicketPriority.urgent)).length }
    byCategory :=
      { technical := (m.tickets.filter (fun t => t.category == TicketCategory.technical)).length
        billing := (m.tickets.filter (fun t => t.category == TicketCategory.billing)).length
        account := (m.tickets.filter (fun t => t.category == TicketCategory.account)).length
        feature := (m.tickets.filter (fun t => t.category == TicketCategory.feature)).length
        bug := (m.tickets.filter (fun t => t.category == TicketCategory.bug)).length
        other := (m.tickets.filter (fun t => t.category == TicketCategory.other)).length } }

/-- `TicketsModel.getUrgentTickets`: urgent tickets that are open or
in-progress, oldest first. -/
def getUrgentTickets (m : TicketsModel) : List Ticket :=
  (m.tickets.filter (fun t =>
      t.priority == TicketPriority.urgent &&
      (t.status == TicketStatus.open_ || t.status == TicketStatus.inProgress))).mergeSort
    (fun a b => a.createdAt ≤ b.createdAt)

/-- The `validTransitions` table inside `changeTicketStatus`. -/
def validTransitions : TicketStatus → List TicketStatus
  | TicketStatus.open_ => [TicketStatus.inProgress, TicketStatus.closed]
  | TicketStatus.inProgress =>
      [TicketStatus.waiting, TicketStatus.resolved, TicketStatus.closed]
  | TicketStatus.waiting => [TicketStatus.inProgress, TicketStatus.closed]
  | TicketStatus.resolved => [TicketStatus.closed, TicketStatus.open_]
  | TicketStatus.closed => [TicketStatus.open_]

/-- The `\x7b status: newStatus \x7d` partial object `changeTicketStatus`
passes to `updateTicket`. -/
def statusPatch (st : TicketStatus) : TicketPatch :=
  { status := some st }

/-- `TicketsModel.changeTicketStatus`: false when the ticket is absent or
the `(currentStatus, newStatus)` edge is not in the transition table;
otherwise apply `updateTicket` with the status patch and return true. -/
def changeTicketStatus (m : TicketsModel) (ticketId : String) (newStatus : TicketStatus)
    (now : Nat) : Bool × TicketsModel :=
  match getTicketById m ticketId with
  | none => (false, m)
  | some ticket =>
      if !((validTransitions ticket.status).contains newStatus) then (false, m)
      else (true, (updateTicket m ticketId (statusPatch newStatus) now).2)

/-- A sequence of `changeTicketStatus` calls, each with its target status
and its clock reading, applied in order to the model state. -/
def applyStatusOps (m : TicketsModel) : List (String × TicketStatus × Nat) → TicketsModel
  | [] => m
  | op :: rest => applyStatusOps (changeTicketStatus m op.1 op.2.1 op.2.2).2 rest

/-- State of the source `TicketsController`: the model, the listener `Set`
(callbacks by identity, insertion order, duplicate-free) and a log of
listener invocations made by `notify`, in order. -/
structure ControllerState where
  model : TicketsModel
  listeners : List Nat
  notifications : List Nat
  deriving DecidableEq, Repr

/-- `TicketsController.subscribe`: `Set.add` of the callback (a no-op when
the same callback is already registered). -/
def subscribe (s : ControllerState) (cb : Nat) : ControllerState :=
  if s.listeners.contains cb then s else { s with listeners := s.listeners ++ [cb] }

/-- The unsubscribe handle returned by `subscribe`:
`() => this.listeners.delete(listener)` removes the callback's
registration from the `Set`. -/
def unsubscribe (s : ControllerState) (cb : Nat) : ControllerState :=
  { s with listeners := s.listeners.filter (fun c => !(c == cb)) }

/-- `TicketsController.notify`: invoke every currently-registered listener
in insertion order (logged by appending the listener list);
`syncToStorage` is persistence, a no-op in the embedded core. -/
def notify (s : ControllerState) : ControllerState :=
  { s with notifications := s.notifications ++ s.listeners }

/-- `TicketsController.createTicket`: mutate the model, then `notify`
unconditionally. -/
def ctrlCreateTicket (s : ControllerState) (draft : TicketDraft) (freshId : String)
    (now : Nat) : ControllerState :=
  notify { s with model := (createTicket s.model draft freshId now).2 }

/-- `TicketsController.updateTicket`: mutate the model, then `notify`
unconditionally (also when the id was absent and nothing changed). -/
def ctrlUpdateTicket (s : ControllerState) (id : String) (p : TicketPatch)
    (now : Nat) : ControllerState :=
  notify { s with model := (updateTicket s.model id p now).2 }

/-- `TicketsController.deleteTicket`: mutate the model, then `notify`
unconditionally (also when the id was absent and nothing changed). -/
def ctrlDeleteTicket (s : ControllerState) (id : String) : ControllerState :=
  notify { s with model := (deleteTicket s.model id).2 }

/-- `TicketsController.changeTicketStatus`: `notify` only when the model
reported success; return the success flag. -/
def ctrlChangeTicketStatus (s : ControllerState) (id : String) (st : TicketStatus)
    (now : Nat) : Bool × ControllerState :=
  let res := changeTicketStatus s.model id st now
  if res.1 then (true, notify { s with model := res.2 })
  else (false, { s with model := res.2 })

/-- `TicketsController.addComment`: mutate the model, then `notify`
unconditionally (also when the ticket was absent and nothing changed). -/
def ctrlAddComment (s : ControllerState) (ticketId : String) (d : CommentDraft)
    (freshId : String) (now : Nat) : ControllerState :=
  notify { s with model := (addComment s.model ticketId d freshId now).2 }

/-- Sample in-progress ticket used to instantiate witnesses. -/
def sampleTicket : Ticket :=
  { id := "t1"
    title := "Login error"
    description := "cannot log in"
    category := TicketCategory.technical
    priority := TicketPriority.high
    status := TicketStatus.inProgress
    author := "Ana"
    assignedTo := none
    createdAt := 1
    updatedAt := 2
    resolvedAt := none
    comments := [] }

/-- Sample resolved ticket (with a stamped `resolvedAt`) for witnesses. -/
def resolvedSampleTicket : Ticket :=
  { id := "t3"
    title := "Feature idea"
    description := "dark mode"
    category := TicketCategory.feature
    priority := TicketPriority.low
    status := TicketStatus.resolved
    author := "Pedro"
    assignedTo := none
    createdAt := 1
    updatedAt := 4
    resolvedAt := some 3
    comments := [] }

/-- Sample one-ticket model state. -/
def sampleModel : TicketsModel := ⟨[sampleTicket]⟩

/-- Sample two-ticket model state. -/
def twoTicketModel : TicketsModel := ⟨[sampleTicket, resolvedSampleTicket]⟩

/-- Sample draft whose required text fields are all empty. -/
def emptyFieldsDraft : TicketDraft :=
  { title := ""
    description := ""
    category := TicketCategory.technical
    priority := TicketPriority.medium
    status := TicketStatus.open_
    author := ""
    assignedTo := none
    resolvedAt := none }

/-- Controller state with no tickets, no listeners, no notifications. -/
def emptyCtrl : ControllerState := ⟨⟨[]⟩, [], []⟩

theorem updateFirstList_length {α : Type} (p : α → Bool) (f : α → α) (l : List α) :
    (updateFirstList p f l).length = l.length := by
  induction l with
  | nil => rfl
  | cons a as ih =>
      simp only [updateFirstList]
      split <;> simp [ih]

theorem find?_updateFirstList {α : Type} (p : α → Bool) (f : α → α) (l : List α) (t : α)
    (h : l.find? p = some t) (hf : p (f t) = true) :
    (updateFirstList p f l).find? p = some (f t) := by
  induction l with
  | nil => simp at h
  | cons a as ih =>
      by_cases ha : p a = true
      · rw [List.find?_cons_of_pos _ ha] at h
        injection h with h
        subst h
        simp [updateFirstList, ha, List.find?_cons_of_pos _ hf]
      · rw [List.find?_cons_of_neg _ (by simpa using ha)] at h
        simp [updateFirstList, ha, List.find?_cons_of_neg, ih h]

/-- Relation between a ticket before and after a guarded status change:
the id is unchanged, and a positive `resolvedAt` stamp is unchanged. -/
def preservesTicket (t t' : Ticket) : Prop :=
  t'.id = t.id ∧ ∀ r : Nat, 0 < r → t.resolvedAt = some r → t'.resolvedAt = some r

theorem preservesTicket_refl (t : Ticket) : preservesTicket t t :=
  ⟨rfl, fun _ _ h => h⟩

theorem preservesTicket_trans {a b c : Ticket}
    (h₁ : preservesTicket a b) (h₂ : preservesTicket b c) : preservesTicket a c :=
  ⟨h₂.1.trans h₁.1, fun r hr h => h₂.2 r hr (h₁.2 r hr h)⟩

theorem forall₂_trans_of_trans {α : Type} {R : α → α → Prop}
    (hR : ∀ a b c, R a b → R b c → R a c) :
    ∀ {l₁ l₂ l₃ : List α}, List.Forall₂ R l₁ l₂ → List.Forall₂ R l₂ l₃ →
      List.Forall₂ R l₁ l₃ := by
  intro l₁ l₂ l₃ h₁ h₂
  induction h₁ generalizing l₃ with
  | nil => cases h₂; exact List.Forall₂.nil
  | cons hab h ih =>
      cases h₂ with
      | cons hbc h' => exact List.Forall₂.cons (hR _ _ _ hab hbc) (ih h')

theorem updateFirstList_forall₂ {α : Type} {R : α → α → Prop} (p : α → Bool) (f : α → α)
    (href : ∀ a, R a a) (hf : ∀ a, R a (f a)) (l : List α) :
    List.Forall₂ R l (updateFirstList p f l) := by
  induction l with
  | nil => exact List.Forall₂.nil
  | cons a as ih =>
      simp only [updateFirstList]
      split
      · exact List.Forall₂.cons (hf a) (List.forall₂_same.mpr fun x _ => href x)
      · exact List.Forall₂.cons (href a) ih

theorem updateTicketFn_statusPatch_id (st : TicketStatus) (now : Nat) (t : Ticket) :
    (updateTicketFn (statusPatch st) now t).id = t.id := by
  simp only [updateTicketFn, applyPatch, statusPatch]
  split <;> rfl

theorem updateTicketFn_statusPatch_keeps_stamp (st : TicketStatus) (now : Nat) (t : Ticket)
    (r : Nat) (hr : 0 < r) (h : t.resolvedAt = some r) :
    (updateTicketFn (statusPatch st) now t).resolvedAt = some r := by
  have hb : (r == 0) = false := by
    cases r with
    | zero => omega
    | succ n => rfl
  simp [updateTicketFn, applyPatch, statusPatch, jsFalsyNat, h, hb]

theorem updateTicketFn_statusPatch_pres (st : TicketStatus) (now : Nat) (t : Ticket) :
    preservesTicket t (updateTicketFn (statusPatch st) now t) :=
  ⟨updateTicketFn_statusPatch_id st now t,
   fun r hr h => updateTicketFn_statusPatch_keeps_stamp st now t r hr h⟩

theorem changeTicketStatus_snd (m : TicketsModel) (id : String) (st : TicketStatus)
    (now : Nat) :
    (changeTicketStatus m id st now).2 = m ∨
    (changeTicketStatus m id st now).2 =
      ⟨updateFirstList (fun t => t.id == id) (updateTicketFn (statusPatch st) now)
        m.tickets⟩ := by
  unfold changeTicketStatus updateTicket getTicketById
  cases h : m.tickets.find? (fun t => t.id == id) with
  | none => left; rfl
  | some t =>
      by_cases hc : (!(validTransitions t.status).contains st) = true
      · left
        have hmem : st ∉ validTransitions t.status := by simpa using hc
        simp [hc, hmem]
      · right
        have hmem : st ∈ validTransitions t.status := by simpa using hc
        simp [hmem]

theorem changeTicketStatus_forall₂ (m : TicketsModel) (id : String) (st : TicketStatus)
    (now : Nat) :
    List.Forall₂ preservesTicket m.tickets ((changeTicketStatus m id st now).2).tickets := by
  rcases changeTicketStatus_snd m id st now with h | h <;> rw [h]
  · exact List.forall₂_same.mpr fun x _ => preservesTicket_refl x
  · exact updateFirstList_forall₂ _ _ preservesTicket_refl
      (fun a => updateTicketFn_statusPatch_pres st now a) m.tickets

theorem applyStatusOps_forall₂ (m : TicketsModel) (ops : List (String × TicketStatus × Nat)) :
    List.Forall₂ preservesTicket m.tickets ((applyStatusOps m ops)).tickets := by
  induction ops generalizing m with
  | nil => exact List.forall₂_same.mpr fun x _ => preservesTicket_refl x
  | cons op rest ih =>
      exact forall₂_trans_of_trans (R := preservesTicket)
        (fun a b c h₁ h₂ => preservesTicket_trans h₁ h₂)
        (changeTicketStatus_forall₂ m op.1 op.2.1 op.2.2) (ih _)

theorem find?_of_forall₂ {α : Type} {R : α → α → Prop} (p : α → Bool)
    (hp : ∀ a a', R a a' → p a' = p a) :
    ∀ {l l' : List α}, List.Forall₂ R l l' → ∀ t, l.find? p = some t →
      ∃ t', l'.find? p = some t' ∧ R t t' := by
  intro l l' h
  induction h with
  | nil => intro t ht; simp at ht
  | cons hab h ih =>
      intro t ht
      rename_i a b as bs
      by_cases ha : p a = true
      · rw [List.find?_cons_of_pos _ ha] at ht
        injection ht with ht
        subst ht
        exact ⟨b, by rw [List.find?_cons_of_pos _ ((hp _ _ hab).trans ha)], hab⟩
      · rw [List.find?_cons_of_neg _ (by simpa using ha)] at ht
        obtain ⟨t', ht', hR⟩ := ih t ht
        refine ⟨t', ?_, hR⟩
        rw [List.find?_cons_of_neg _ (by simp [hp _ _ hab]; simpa using ha)]
        exact ht'

theorem updateTicketFn_resolved_stamps (now : Nat) (t : Ticket)
    (h : t.resolvedAt = none) :
    (updateTicketFn (statusPatch TicketStatus.resolved) now t).resolvedAt = some now := by
  simp [updateTicketFn, applyPatch, statusPatch, jsFalsyNat, h]

theorem changeTicketStatus_fst (m : TicketsModel) (id : String) (st : TicketStatus)
    (now : Nat) (t : Ticket) (h : getTicketById m id = some t) :
    (changeTicketStatus m id st now).1 = (validTransitions t.status).contains st := by
  unfold changeTicketStatus
  rw [h]
  by_cases hmem : st ∈ validTransitions t.status
  · simp [hmem]
  · simp [hmem]

theorem changeTicketStatus_not_edge (m : TicketsModel) (id : String) (st : TicketStatus)
    (now : Nat) (t : Ticket) (h : getTicketById m id = some t)
    (hc : (validTransitions t.status).contains st = false) :
    changeTicketStatus m id st now = (false, m) := by
  have hmem : st ∉ validTransitions t.status := by simpa using hc
  unfold changeTicketStatus
  rw [h]
  simp [hmem]

theorem changeTicketStatus_of_found (m : TicketsModel) (id : String) (st : TicketStatus)
    (now : Nat) (t : Ticket) (h : getTicketById m id = some t)
    (hmem : st ∈ validTransitions t.status) :
    changeTicketStatus m id st now =
      (true, ⟨updateFirstList (fun u => u.id == id)
        (updateTicketFn (statusPatch st) now) m.tickets⟩) := by
  unfold changeTicketStatus updateTicket getTicketById
  unfold getTicketById at h
  cases hf : m.tickets.find? (fun u => u.id == id) with
  | none => rw [h] at hf; cases hf
  | some u =>
      rw [h] at hf
      injection hf with hf
      subst hf
      simp [hmem]

/-- C1: for a ticket present in the store, `changeTicketStatus` succeeds
iff the `(currentStatus, newStatus)` pair is an edge of the transition
table, and on every other pair (self-transitions included) it returns
false and leaves the whole store — hence the ticket's status and its
`updatedAt` — unchanged. -/
theorem changeStatus_iff_edge (m : TicketsModel) (id : String) (st : TicketStatus)
    (now : Nat) (t : Ticket) (h : getTicketById m id = some t) :
    (changeTicketStatus m id st now).1 = (validTransitions t.status).contains st ∧
    ((validTransitions t.status).contains st = false →
      (changeTicketStatus m id st now).2 = m) :=
  ⟨changeTicketStatus_fst m id st now t h,
   fun hc => by rw [changeTicketStatus_not_edge m id st now t h hc]⟩

/-- Witness for C1: in the sample store, in-progress → open is not an
edge, so the call fails and the store is unchanged. -/
theorem changeStatus_iff_edge_witness :
    (changeTicketStatus sampleModel "t1" TicketStatus.open_ 5).1 =
      (validTransitions sampleTicket.status).contains TicketStatus.open_ ∧
    ((validTransitions sampleTicket.status).contains TicketStatus.open_ = false →
      (changeTicketStatus sampleModel "t1" TicketStatus.open_ 5).2 = sampleModel) :=
  changeStatus_iff_edge sampleModel "t1" TicketStatus.open_ 5 sampleTicket (by rfl)

/-- C2 counterexample: `createTicket` performs no validation — a draft
whose title, description and author are all the empty string still
appends a ticket to the collection (the mutation is applied), contrary
to the claimed ValidationError. -/
theorem create_empty_draft_still_inserts :
    ((createTicket ⟨[]⟩ emptyFieldsDraft "ticket_1" 5).2).tickets.length = 1 ∧
    (createTicket ⟨[]⟩ emptyFieldsDraft "ticket_1" 5).1.title = "" ∧
    (createTicket ⟨[]⟩ emptyFieldsDraft "ticket_1" 5).1.author = "" :=
  ⟨rfl, rfl, rfl⟩

/-- C2 amended: `createTicket` never fails and always applies the
mutation, for every draft including ones whose title, description or
author is empty: the new store is the old one with the returned ticket
appended, and the returned ticket carries the draft's (possibly empty)
required fields verbatim. -/
theorem createTicket_always_appends (m : TicketsModel) (draft : TicketDraft)
    (freshId : String) (now : Nat) :
    ((createTicket m draft freshId now).2).tickets =
      m.tickets ++ [(createTicket m draft freshId now).1] ∧
    (createTicket m draft freshId now).1.title = draft.title ∧
    (createTicket m draft freshId now).1.description = draft.description ∧
    (createTicket m draft freshId now).1.author = draft.author :=
  ⟨rfl, rfl, rfl, rfl⟩

/-- C3: `resolvedAt` is stamped at the first successful transition into
`resolved` — a stored ticket without a stamp gets `resolvedAt = now` when
`changeTicketStatus` into `resolved` succeeds (first conjunct) — and once
a ticket carries a positive (i.e. real-clock) stamp, no later sequence of
`changeTicketStatus` calls ever clears or changes it (second conjunct). -/
theorem resolvedAt_stamped_once :
    (∀ (m : TicketsModel) (id : String) (now : Nat) (t : Ticket),
      getTicketById m id = some t → t.resolvedAt = none →
      (changeTicketStatus m id TicketStatus.resolved now).1 = true →
      ∃ t', getTicketById (changeTicketStatus m id TicketStatus.resolved now).2 id =
          some t' ∧ t'.resolvedAt = some now) ∧
    (∀ (m : TicketsModel) (ops : List (String × TicketStatus × Nat)) (id : String)
      (t : Ticket) (r : Nat),
      getTicketById m id = some t → 0 < r → t.resolvedAt = some r →
      ∃ t', getTicketById (applyStatusOps m ops) id = some t' ∧
        t'.resolvedAt = some r) := by
  constructor
  · intro m id now t hfind hnone hsucc
    by_cases hmem : TicketStatus.resolved ∈ validTransitions t.status
    · rw [changeTicketStatus_of_found m id TicketStatus.resolved now t hfind hmem]
      unfold getTicketById
      unfold getTicketById at hfind
      have hpf : ((updateTicketFn (statusPatch TicketStatus.resolved) now t).id == id) =
          true := by
        rw [updateTicketFn_statusPatch_id]
        exact List.find?_some (p := fun u : Ticket => u.id == id) hfind
      exact ⟨updateTicketFn (statusPatch TicketStatus.resolved) now t,
        find?_updateFirstList _ _ m.tickets t hfind hpf,
        updateTicketFn_resolved_stamps now t hnone⟩
    · have hc : (validTransitions t.status).contains TicketStatus.resolved = false := by
        simpa using hmem
      rw [changeTicketStatus_not_edge m id TicketStatus.resolved now t hfind hc] at hsucc
      cases hsucc
  · intro m ops id t r hfind hr hres
    have hF := applyStatusOps_forall₂ m ops
    unfold getTicketById at hfind ⊢
    obtain ⟨t', ht', hR⟩ :=
      find?_of_forall₂ (p := fun u => u.id == id)
        (fun a a' h => by
          show (a'.id == id) = (a.id == id)
          rw [h.1]) hF t hfind
    exact ⟨t', ht', hR.2 r hr hres⟩

/-- Witness for C3: in the sample store, in-progress → resolved stamps
`resolvedAt = 5`; and the stamped ticket `t3` keeps `resolvedAt = 3`
across the later legal sequence resolved → closed → open. -/
theorem resolvedAt_stamped_once_witness :
    (∃ t', getTicketById (changeTicketStatus sampleModel "t1"
        TicketStatus.resolved 5).2 "t1" = some t' ∧ t'.resolvedAt = some 5) ∧
    (∃ t', getTicketById (applyStatusOps twoTicketModel
        [("t3", TicketStatus.closed, 6), ("t3", TicketStatus.open_, 7)]) "t3" =
          some t' ∧ t'.resolvedAt = some 3) :=
  ⟨resolvedAt_stamped_once.1 sampleModel "t1" 5 sampleTicket (by rfl) (by rfl) (by rfl),
   resolvedAt_stamped_once.2 twoTicketModel
     [("t3", TicketStatus.closed, 6), ("t3", TicketStatus.open_, 7)] "t3"
     resolvedSampleTicket 3 (by rfl) (by decide) (by rfl)⟩

/-- C4 counterexample: with one subscriber and an empty store, the
controller's `deleteTicket` on an absent id changes no state at all, yet
the subscriber is notified once — so it is false that only mutations
that actually change state trigger a notification. -/
theorem delete_missing_id_still_notifies :
    (ctrlDeleteTicket (subscribe emptyCtrl 0) "absent").model =
      (subscribe emptyCtrl 0).model ∧
    (ctrlDeleteTicket (subscribe emptyCtrl 0) "absent").notifications = [0] :=
  ⟨rfl, rfl⟩

/-- C4 amended: a subscriber is notified exactly once per `create`,
`update`, `delete` and `addComment` controller call — whether or not the
call actually changed state — exactly once per successful
`changeStatus`, and zero times when `changeStatus` fails (read-only
queries are pure functions and notify nobody). Each notifying call
appends the registered listener list, in registration order, to the
invocation log. -/
theorem notifications_per_call (s : ControllerState) :
    (∀ (draft : TicketDraft) (freshId : String) (now : Nat),
      (ctrlCreateTicket s draft freshId now).notifications =
        s.notifications ++ s.listeners) ∧
    (∀ (id : String) (p : TicketPatch) (now : Nat),
      (ctrlUpdateTicket s id p now).notifications = s.notifications ++ s.listeners) ∧
    (∀ id : String,
      (ctrlDeleteTicket s id).notifications = s.notifications ++ s.listeners) ∧
    (∀ (id : String) (st : TicketStatus) (now : Nat),
      ((ctrlChangeTicketStatus s id st now).2).notifications =
        (if (ctrlChangeTicketStatus s id st now).1 then
          s.notifications ++ s.listeners else s.notifications)) ∧
    (∀ (ticketId : String) (d : CommentDraft) (freshId : String) (now : Nat),
      (ctrlAddComment s ticketId d freshId now).notifications =
        s.notifications ++ s.listeners) := by
  refine ⟨fun _ _ _ => rfl, fun _ _ _ => rfl, fun _ => rfl, ?_, fun _ _ _ _ => rfl⟩
  intro id st now
  simp only [ctrlChangeTicketStatus]
  by_cases h : (changeTicketStatus s.model id st now).1 = true
  · simp [h, notify]
  · rw [Bool.not_eq_true] at h
    simp [h, notify]

theorem status_filter_sum (l : List Ticket) :
    (l.filter (fun t => t.status == TicketStatus.open_)).length +
    (l.filter (fun t => t.status == TicketStatus.inProgress)).length +
    (l.filter (fun t => t.status == TicketStatus.waiting)).length +
    (l.filter (fun t => t.status == TicketStatus.resolved)).length +
    (l.filter (fun t => t.status == TicketStatus.closed)).length = l.length := by
  induction l with
  | nil => rfl
  | cons a as ih =>
      cases h : a.status <;> simp [List.filter_cons, h] <;> omega

theorem priority_filter_sum (l : List Ticket) :
    (l.filter (fun t => t.priority == TicketPriority.low)).length +
    (l.filter (fun t => t.priority == TicketPriority.medium)).length +
    (l.filter (fun t => t.priority == TicketPriority.high)).length +
    (l.filter (fun t => t.priority == TicketPriority.urgent)).length = l.length := by
  induction l with
  | nil => rfl
  | cons a as ih =>
      cases h : a.priority <;> simp [List.filter_cons, h] <;> omega

theorem category_filter_sum (l : List Ticket) :
    (l.filter (fun t => t.category == TicketCategory.technical)).length +
    (l.filter (fun t => t.category == TicketCategory.billing)).length +
    (l.filter (fun t => t.category == TicketCategory.account)).length +
    (l.filter (fun t => t.category == TicketCategory.feature)).length +
    (l.filter (fun t => t.category == TicketCategory.bug)).length +
    (l.filter (fun t => t.category == TicketCategory.other)).length = l.length := by
  induction l with
  | nil => rfl
  | cons a as ih =>
      cases h : a.category <;> simp [List.filter_cons, h] <;> omega

/-- C5: in every state, `statistics().total` equals `listAll().length`,
the five per-status counts sum to total, the four per-priority counts
sum to total, and the six per-category counts sum to total. -/
theorem statistics_consistent (m : TicketsModel) :
    (getStatistics m).total = (getAllTickets m).length ∧
    (getStatistics m).open_ + (getStatistics m).inProgress + (getStatistics m).waiting +
      (getStatistics m).resolved + (getStatistics m).closed = (getStatistics m).total ∧
    (getStatistics m).byPriority.low + (getStatistics m).byPriority.medium +
      (getStatistics m).byPriority.high + (getStatistics m).byPriority.urgent =
        (getStatistics m).total ∧
    (getStatistics m).byCategory.technical + (getStatistics m).byCategory.billing +
      (getStatistics m).byCategory.account + (getStatistics m).byCategory.feature +
      (getStatistics m).byCategory.bug + (getStatistics m).byCategory.other =
        (getStatistics m).total := by
  refine ⟨?_, ?_, ?_, ?_⟩
  · simp [getStatistics, getAllTickets, List.length_mergeSort]
  · exact status_filter_sum m.tickets
  · exact priority_filter_sum m.tickets
  · exact category_filter_sum m.tickets

/-- C6 counterexample: `listeners` is a `Set`, so subscribing the same
callback twice is deduplicated — after two `subscribe` calls with
callback 7 and one successful create mutation, the callback is invoked
once, not twice. -/
theorem double_subscribe_single_invocation :
    (ctrlCreateTicket (subscribe (subscribe emptyCtrl 7) 7) emptyFieldsDraft
      "ticket_1" 5).notifications = [7] :=
  rfl

/-- C6 amended: `subscribe` adds the callback to a `Set`, so a second
`subscribe` of the same callback is a no-op (one registration, not two);
after two `subscribe` calls with a fresh callback and one successful
mutation the callback is invoked exactly once; and the unsubscribe
handle removes the callback's single registration. -/
theorem subscribe_dedup (s : ControllerState) (cb : Nat) (draft : TicketDraft)
    (freshId : String) (now : Nat) (h : cb ∉ s.listeners) :
    subscribe (subscribe s cb) cb = subscribe s cb ∧
    (subscribe (subscribe s cb) cb).listeners.count cb = 1 ∧
    (ctrlCreateTicket (subscribe (subscribe s cb) cb) draft
      freshId now).notifications.count cb = s.notifications.count cb + 1 ∧
    (unsubscribe (subscribe (subscribe s cb) cb) cb).listeners.count cb = 0 := by
  have hc : s.listeners.contains cb = false := by simpa using h
  have h0 : s.listeners.count cb = 0 := List.count_eq_zero.mpr h
  have h1 : subscribe s cb = { s with listeners := s.listeners ++ [cb] } := by
    simp [subscribe, h]
  have h2 : subscribe (subscribe s cb) cb = subscribe s cb := by
    rw [h1]
    have hin : cb ∈ s.listeners ++ [cb] := by simp
    simp [subscribe, hin]
  refine ⟨h2, ?_, ?_, ?_⟩
  · rw [h2, h1]
    simp [List.count_append, h0]
  · rw [h2, h1]
    simp [ctrlCreateTicket, notify, List.count_append, h0]
  · rw [h2, h1]
    simp [unsubscribe, List.count_eq_zero, List.mem_filter]

/-- Witness for C6 amended: a fresh callback 7 on the empty controller
state is registered once, invoked once by a create, and removed by the
unsubscribe handle. -/
theorem subscribe_dedup_witness :
    subscribe (subscribe emptyCtrl 7) 7 = subscribe emptyCtrl 7 ∧
    (subscribe (subscribe emptyCtrl 7) 7).listeners.count 7 = 1 ∧
    (ctrlCreateTicket (subscribe (subscribe emptyCtrl 7) 7) emptyFieldsDraft
      "t9" 5).notifications.count 7 = emptyCtrl.notifications.count 7 + 1 ∧
    (unsubscribe (subscribe (subscribe emptyCtrl 7) 7) 7).listeners.count 7 = 0 :=
  subscribe_dedup emptyCtrl 7 emptyFieldsDraft "t9" 5 (by simp [emptyCtrl])

theorem addComment_of_found (m : TicketsModel) (ticketId : String) (d : CommentDraft)
    (freshId : String) (now : Nat) (t : Ticket) (h : getTicketById m ticketId = some t) :
    addComment m ticketId d freshId now =
      (some (mkComment freshId ticketId d now),
       ⟨updateFirstList (fun u => u.id == ticketId)
          (fun u => { u with comments := u.comments ++ [mkComment freshId ticketId d now]
                             updatedAt := now }) m.tickets⟩) := by
  unfold addComment
  unfold getTicketById at h
  cases hf : m.tickets.find? (fun u => u.id == ticketId) with
  | none => rw [h] at hf; cases hf
  | some u => rfl

/-- C7: `addComment` on an absent ticket id returns the not-found signal
and leaves the whole collection unchanged (no orphan comment anywhere);
on a present id it returns the new comment, appends it to that ticket's
comment sequence, and stamps that ticket's `updatedAt = now`. -/
theorem addComment_spec (m : TicketsModel) (ticketId : String) (d : CommentDraft)
    (freshId : String) (now : Nat) :
    (getTicketById m ticketId = none →
      addComment m ticketId d freshId now = (none, m)) ∧
    (∀ t : Ticket, getTicketById m ticketId = some t →
      (addComment m ticketId d freshId now).1 =
          some (mkComment freshId ticketId d now) ∧
      getTicketById (addComment m ticketId d freshId now).2 ticketId =
        some { t with comments := t.comments ++ [mkComment freshId ticketId d now]
                      updatedAt := now }) := by
  constructor
  · intro h
    unfold addComment
    unfold getTicketById at h
    rw [h]
  · intro t h
    rw [addComment_of_found m ticketId d freshId now t h]
    refine ⟨rfl, ?_⟩
    unfold getTicketById
    unfold getTicketById at h
    apply find?_updateFirstList _ _ m.tickets t h
    show ((t.id == ticketId) = true)
    exact List.find?_some (p := fun u : Ticket => u.id == ticketId) h

/-- Witness for C7: adding a comment to absent id `zz` changes nothing;
adding one to `t1` appends it and stamps `updatedAt = 9`. -/
theorem addComment_spec_witness :
    addComment sampleModel "zz" ⟨"Bob", "hi", false⟩ "c9" 9 = (none, sampleModel) ∧
    ((addComment sampleModel "t1" ⟨"Bob", "hi", false⟩ "c9" 9).1 =
        some (mkComment "c9" "t1" ⟨"Bob", "hi", false⟩ 9) ∧
      getTicketById (addComment sampleModel "t1" ⟨"Bob", "hi", false⟩ "c9" 9).2 "t1" =
        some { sampleTicket with
                 comments := sampleTicket.comments ++ [mkComment "c9" "t1" ⟨"Bob", "hi", false⟩ 9]
                 updatedAt := 9 }) :=
  ⟨(addComment_spec sampleModel "zz" ⟨"Bob", "hi", false⟩ "c9" 9).1 (by rfl),
   (addComment_spec sampleModel "t1" ⟨"Bob", "hi", false⟩ "c9" 9).2 sampleTicket (by rfl)⟩

/-- C8: `changeTicketStatus` on an id absent from the collection returns
false and leaves the model unchanged, for every requested status; at the
controller level the call returns false and the whole controller state —
notification log included — is unchanged, so no subscriber is
notified. -/
theorem changeStatus_missing_id (s : ControllerState) (id : String) (st : TicketStatus)
    (now : Nat) (h : getTicketById s.model id = none) :
    changeTicketStatus s.model id st now = (false, s.model) ∧
    ctrlChangeTicketStatus s id st now = (false, s) := by
  have h1 : changeTicketStatus s.model id st now = (false, s.model) := by
    unfold changeTicketStatus
    rw [h]
  refine ⟨h1, ?_⟩
  simp [ctrlChangeTicketStatus, h1]

/-- Witness for C8: on the empty store, a status change of a missing id
fails and the controller state is untouched. -/
theorem changeStatus_missing_id_witness :
    changeTicketStatus emptyCtrl.model "zz" TicketStatus.open_ 5 =
      (false, emptyCtrl.model) ∧
    ctrlChangeTicketStatus emptyCtrl "zz" TicketStatus.open_ 5 = (false, emptyCtrl) :=
  changeStatus_missing_id emptyCtrl "zz" TicketStatus.open_ 5 (by rfl)

theorem listStartsWith_nil (l : List Char) : listStartsWith [] l = true := by
  cases l <;> rfl

theorem listHasSub_nil (l : List Char) : listHasSub [] l = true := by
  cases l with
  | nil => rfl
  | cons c cs => simp [listHasSub, listStartsWith_nil]

theorem strIncludes_empty_term (s : String) : strIncludes s "" = true := by
  unfold strIncludes
  rw [show ("" : String).toList = [] from rfl]
  exact listHasSub_nil s.toList

/-- C9: searching with the empty term returns every ticket: the empty
string is a substring of every lowercased title, so `searchTickets m ""`
is exactly the backing collection and hence has the same elements as
`listAll` (`getAllTickets`). -/
theorem search_empty_returns_all (m : TicketsModel) :
    searchTickets m "" = m.tickets ∧
    ∀ t : Ticket, t ∈ searchTickets m "" ↔ t ∈ getAllTickets m := by
  have h1 : searchTickets m "" = m.tickets := by
    show m.tickets.filter (fun t =>
      strIncludes (jsToLower t.title) (jsToLower "") ||
      strIncludes (jsToLower t.description) (jsToLower "") ||
      strIncludes (jsToLower t.id) (jsToLower "")) = m.tickets
    rw [show jsToLower "" = "" by decide]
    apply List.filter_eq_self.mpr
    intro t ht
    simp [strIncludes_empty_term]
  refine ⟨h1, ?_⟩
  intro t
  rw [h1]
  unfold getAllTickets
  simp [List.mem_mergeSort]

/-- C10: `deleteTicket` affects only the targeted id — every ticket with
a different id survives as the same unchanged `Ticket` value (all fields
and the whole comment sequence intact), the surviving tickets keep their
relative order (the new collection is a sublist of the old), and no
ticket with the deleted id remains. -/
theorem delete_frame (m : TicketsModel) (id : String) :
    (∀ t : Ticket, t ∈ m.tickets → t.id ≠ id →
      t ∈ ((deleteTicket m id).2).tickets) ∧
    ((deleteTicket m id).2).tickets.Sublist m.tickets ∧
    (∀ t : Ticket, t ∈ ((deleteTicket m id).2).tickets → t.id ≠ id) := by
  refine ⟨?_, ?_, ?_⟩
  · intro t ht hne
    simp [deleteTicket, List.mem_filter, ht, hne]
  · show (m.tickets.filter (fun t => !(t.id == id))).Sublist m.tickets
    exact List.filter_sublist m.tickets
  · intro t ht
    simp [deleteTicket, List.mem_filter] at ht
    exact ht.2

/-- Witness for C10: deleting `t1` from the two-ticket store keeps the
unrelated resolved ticket `t3`. -/
theorem delete_frame_witness :
    resolvedSampleTicket ∈ ((deleteTicket twoTicketModel "t1").2).tickets :=
  (delete_frame twoTicketModel "t1").1 resolvedSampleTicket (by decide) (by decide)
